import Mathlib

set_option autoImplicit false

namespace TinypgVscode

/-!
Shallow embedding of the binding-reconciliation engine of the
vscode-tinypg extension, translated from src/util.ts, src/diagnostics.ts
and src/extension.ts. JavaScript runtime type errors (reading a field of
undefined) are modelled as Except.error; the external collaborators
(workspace file search, file contents, the tinypg-parser parseSql black
box) are modelled as an explicit environment record.
-/

/-- The single-quote character (code point 39), the quote used by the
source text of string-literal property names. -/
def sq : Char := Char.ofNat 39

/-- The single-quote character as a one-character string. -/
def sqs : String := String.mk [sq]

/-- vscode.DiagnosticSeverity, restricted to the two severities the
analysis produces. -/
inductive Severity where
  | error
  | warning
  deriving DecidableEq, Repr

/-- A source range, modelled by the pair of character offsets handed to
document.positionAt (positionAt is injective on valid offsets, so offsets
stand for positions). -/
structure Range where
  lo : Nat
  hi : Nat
  deriving DecidableEq, Repr

/-- vscode.Diagnostic as the analysis constructs it: range, message,
severity. -/
structure Diagnostic where
  range : Range
  message : String
  severity : Severity
  deriving DecidableEq, Repr

/-- A ts.PropertyName node, as read through name.getText(): an identifier
name, a string-literal name (whose source text keeps the quote
characters), or a computed name (whose source text keeps the brackets). -/
inductive PropName where
  | ident (s : String)
  | strLit (s : String)
  | computed (s : String)
  deriving DecidableEq, Repr

/-- name.getText(): the exact source text of the property-name node. -/
def PropName.getText : PropName → String
  | .ident s => s
  | .strLit s => sqs ++ s ++ sqs
  | .computed s => "[" ++ s ++ "]"

/-- One property of an object literal, as discriminated by ts.SyntaxKind
in collectUserParams: a PropertyAssignment (whose name node may be an
identifier, a string literal or a computed name), a
ShorthandPropertyAssignment, or a SpreadAssignment (the kind that fails
the filter, e.g. a spread element). -/
inductive ObjectProp where
  | propAssign (name : PropName)
  | shorthandAssign (name : String)
  | spreadAssign
  deriving DecidableEq, Repr

/-- The filter predicate of collectUserParams: kind is PropertyAssignment
or ShorthandPropertyAssignment. -/
def ObjectProp.isAssignment : ObjectProp → Bool
  | .propAssign _ => true
  | .shorthandAssign _ => true
  | .spreadAssign => false

/-- x.name.getText() for a property kept by the filter (a spread has no
name node; that case is unreachable after the kind filter). -/
def ObjectProp.nameText : ObjectProp → String
  | .propAssign n => n.getText
  | .shorthandAssign s => s
  | .spreadAssign => ""

/-- The ts.SyntaxKind cases of an argument expression that the analysis
discriminates on. -/
inductive ExprKind where
  | stringLit (text : String)
  | noSubstTemplate (text : String)
  | templateWithSubst
  | objectLit (props : List ObjectProp)
  | identRef (name : String)
  deriving DecidableEq, Repr

/-- An argument expression node: its pos and end character offsets plus
the kind the analysis inspects. -/
structure Expr where
  pos : Nat
  end_ : Nat
  kind : ExprKind
  deriving DecidableEq, Repr

/-- The guard of findAllTinyCallsHelp on arguments[0].kind: StringLiteral
or NoSubstitutionTemplateLiteral. -/
def ExprKind.isStringLike : ExprKind → Bool
  | .stringLit _ => true
  | .noSubstTemplate _ => true
  | _ => false

/-- The .text field read through the StringLiteralLike cast (an identifier
also carries a text field in the TypeScript AST; other kinds are never
read on the analysed paths). -/
def Expr.litText : Expr → String
  | ⟨_, _, .stringLit t⟩ => t
  | ⟨_, _, .noSubstTemplate t⟩ => t
  | ⟨_, _, .identRef n⟩ => n
  | _ => ""

/-- The part of a ts.CallExpression the analysis reads: the name text of
its callee when the callee is a property access carrying a name node
(none models the undefined guard failing), and the argument list. -/
structure CallExprData where
  callee_member : Option String
  args : List Expr
  deriving DecidableEq, Repr

/-- A syntax-tree node: either a call expression or any other node; in
both cases ts.forEachChild visits the listed children. -/
inductive Node where
  | call (data : CallExprData) (children : List Node)
  | other (children : List Node)

mutual

/-- findAllTinyCallsHelp from util.ts. At a call expression whose callee
member name equals call_name, the source reads arguments[0].kind before
any length check: with an empty argument list arguments[0] is undefined
and reading .kind of it throws a TypeError, modelled as Except.error.
Matches at a node are recorded before the forEachChild recursion. -/
def findAllTinyCallsHelp (call_name : String) : Node → Except String (List CallExprData)
  | .call data children => do
      let here ←
        match data.callee_member with
        | some property_name =>
            if property_name == call_name then
              match data.args with
              | [] => Except.error "TypeError: cannot read kind of undefined"
              | arg0 :: _ =>
                  if arg0.kind.isStringLike then pure [data] else pure []
            else pure []
        | none => pure []
      let rest ← findAllTinyCallsChildren call_name children
      pure (here ++ rest)
  | .other children => findAllTinyCallsChildren call_name children

/-- The ts.forEachChild recursion of findAllTinyCallsHelp over the child
nodes, in order. -/
def findAllTinyCallsChildren (call_name : String) : List Node → Except String (List CallExprData)
  | [] => pure []
  | c :: cs => do
      let r ← findAllTinyCallsHelp call_name c
      let rs ← findAllTinyCallsChildren call_name cs
      pure (r ++ rs)

end

/-- findAllTinyCalls from util.ts: run the helper with an empty results
accumulator. -/
def findAllTinyCalls (call_name : String) (n : Node) : Except String (List CallExprData) :=
  findAllTinyCallsHelp call_name n

/-- One entry of the tinypg-parser mapping: a named parameter. -/
structure ParamEntry where
  name : String
  deriving DecidableEq, Repr

/-- tinypg-parser SqlParseResult, as far as the analysis reads it: the
ordered list of named parameters of the SQL text. -/
structure SqlParseResult where
  mapping : List ParamEntry
  deriving DecidableEq, Repr

/-- parse_result.mapping.map(x => x.name): the expected parameter names. -/
def SqlParseResult.names (pr : SqlParseResult) : List String :=
  pr.mapping.map ParamEntry.name

/-- UserParams from types.ts. -/
structure UserParams where
  property_names : List String
  range : Range
  all_property_assignment : Bool
  deriving DecidableEq, Repr

/-- collectUserParams from util.ts: keep the properties whose kind is
PropertyAssignment or ShorthandPropertyAssignment, take the exact source
text of each kept name, record the literal range, and set
all_property_assignment exactly when the kept count equals the full
property count. -/
def collectUserParams (object_pos object_end : Nat) (properties : List ObjectProp) : UserParams :=
  let assigned_object_properties := properties.filter ObjectProp.isAssignment
  let property_names := assigned_object_properties.map ObjectProp.nameText
  { property_names := property_names,
    range := ⟨object_pos, object_end⟩,
    all_property_assignment := property_names.length == properties.length }

/-- The record checkForExtraProperties returns. -/
structure ExtraCheck where
  user_parameters : UserParams
  extra_properties : List String
  deriving DecidableEq, Repr

/-- The record checkForMissingProperties returns. -/
structure MissingCheck where
  user_parameters : UserParams
  missing_properties : List String
  deriving DecidableEq, Repr

/-- The property names of Object.prototype in ECMAScript. lodash keyBy
builds a plain object whose prototype is Object.prototype, so a property
access with any of these names resolves through the prototype chain to a
non-nil inherited value even when the name is not an own key (keyBy
assigns an own key named __proto__ via defineProperty, so that name too is
non-nil either way). -/
def objectPrototypeMembers : List String :=
  ["constructor", "hasOwnProperty", "isPrototypeOf", "propertyIsEnumerable",
   "toLocaleString", "toString", "valueOf", "__proto__",
   "__defineGetter__", "__defineSetter__", "__lookupGetter__", "__lookupSetter__"]

/-- The test _.isNil(_.keyBy(names)[p]) is false exactly when p is an own
key of the keyBy object (a member of names) or an Object.prototype member
name reached through the prototype chain. -/
def keyByLookupNotNil (names : List String) (p : String) : Bool :=
  names.contains p || objectPrototypeMembers.contains p

/-- checkForExtraProperties from util.ts: undefined (none) when either
input is nil; otherwise the supplied names filtered to those whose lookup
in the lodash keyBy of the expected names is nil. The JavaScript property
access walks the prototype chain, so a supplied name that is an
Object.prototype member is treated as present even when it is not an
expected name. -/
def checkForExtraProperties (parse_result : Option SqlParseResult) (user_params : Option UserParams) :
    Option ExtraCheck :=
  match parse_result, user_params with
  | some pr, some u =>
      let param_keys := pr.mapping.map ParamEntry.name
      some { user_parameters := u,
             extra_properties := u.property_names.filter (fun p => !(keyByLookupNotNil param_keys p)) }
  | _, _ => none

/-- checkForMissingProperties from util.ts: undefined (none) when either
input is nil; otherwise the expected names filtered to those whose lookup
in the lodash keyBy of the supplied names is nil. The JavaScript property
access walks the prototype chain, so an expected name that is an
Object.prototype member is treated as supplied even when it is not. No
exhaustiveness flag is consulted here. -/
def checkForMissingProperties (parse_result : Option SqlParseResult) (user_params : Option UserParams) :
    Option MissingCheck :=
  match parse_result, user_params with
  | some pr, some u =>
      let property_name_lookup := u.property_names
      let required_properties := pr.mapping.map ParamEntry.name
      some { user_parameters := u,
             missing_properties := required_properties.filter (fun p => !(keyByLookupNotNil property_name_lookup p)) }
  | _, _ => none

/-- The extra_properties of a check result, empty when no check happened. -/
def extraPropsOf (parse_result : Option SqlParseResult) (user_params : Option UserParams) : List String :=
  match checkForExtraProperties parse_result user_params with
  | none => []
  | some check => check.extra_properties

/-- The missing_properties of a check result, empty when no check
happened. -/
def missingPropsOf (parse_result : Option SqlParseResult) (user_params : Option UserParams) : List String :=
  match checkForMissingProperties parse_result user_params with
  | none => []
  | some check => check.missing_properties

/-- The message template of extraPropertyDiagnostics in diagnostics.ts. -/
def extraMessage (extra_properties : List String) (name : String) : String :=
  "TinyPg: Unused " ++ (if extra_properties.length == 1 then "parameter" else "parameters") ++
    " [" ++ String.intercalate ", " extra_properties ++ "] for [" ++ name ++ "]."

/-- The message template of missingPropertyDiagnostics in diagnostics.ts. -/
def missingMessage (missing_properties : List String) (name : String) : String :=
  "TinyPg: Missing " ++ (if missing_properties.length == 1 then "parameter" else "parameters") ++
    " [" ++ String.intercalate ", " missing_properties ++ "] for [" ++ name ++ "]."

/-- extraPropertyDiagnostics from diagnostics.ts: no diagnostic for an
empty list, otherwise a single warning at the literal range. -/
def extraPropertyDiagnostics (user_params : UserParams) (extra_properties : List String) (name : String) :
    List Diagnostic :=
  if extra_properties.isEmpty then []
  else
    [ { range := user_params.range,
        message := extraMessage extra_properties name,
        severity := Severity.warning } ]

/-- missingPropertyDiagnostics from diagnostics.ts: no diagnostic for an
empty list, otherwise a single error at the literal range. -/
def missingPropertyDiagnostics (user_params : UserParams) (missing_properties : List String) (name : String) :
    List Diagnostic :=
  if missing_properties.isEmpty then []
  else
    [ { range := user_params.range,
        message := missingMessage missing_properties name,
        severity := Severity.error } ]

/-- The external collaborators: vscode.workspace.findFiles (glob pattern
to matching uris), openTextDocument plus getText (uri to contents), and
the tinypg-parser parseSql black box (SQL text to parse result). -/
structure Env where
  findFiles : String → List String
  fileText : String → String
  parseSql : String → SqlParseResult

/-- The dot character (code point 46). -/
def dotChar : Char := Char.ofNat 46

/-- The forward-slash character (code point 47). -/
def slashChar : Char := Char.ofNat 47

/-- JavaScript String.replace with the plain string pattern consisting of
one dot: only the first occurrence is replaced. -/
def replaceFirstDotChars : List Char → List Char
  | [] => []
  | c :: cs => if c = dotChar then slashChar :: cs else c :: replaceFirstDotChars cs

/-- JavaScript String.replace with a global dot regex: every occurrence is
replaced. -/
def replaceAllDotsChars : List Char → List Char
  | [] => []
  | c :: cs => (if c = dotChar then slashChar else c) :: replaceAllDotsChars cs

/-- sql_file_key.replace(dot, slash) as findTinySqlFile performs it: first
occurrence only. -/
def jsReplaceFirstDot (s : String) : String :=
  String.mk (replaceFirstDotChars s.data)

/-- key.replace(global dot regex, slash) as missingTinyFiles performs it:
every occurrence. -/
def jsReplaceAllDots (s : String) : String :=
  String.mk (replaceAllDotsChars s.data)

/-- The glob pattern findTinySqlFile from util.ts hands to the external
file locator. -/
def path_to_search (sql_file_key : String) : String :=
  "**/" ++ jsReplaceFirstDot sql_file_key ++ ".sql"

/-- findTinySqlFile from util.ts: search the workspace with the pattern,
return the first hit or none. -/
def findTinySqlFile (env : Env) (sql_file_key : String) : Option String :=
  match env.findFiles (path_to_search sql_file_key) with
  | [] => none
  | u :: _ => some u

/-- The key-to-relative-path transform of missingTinyFiles in
extension.ts: every dot becomes a path separator before the .sql suffix. -/
def missingTinyFileName (key : String) : String :=
  jsReplaceAllDots key ++ ".sql"

/-- The sql_file field of a TinyCallSearchResult. -/
structure SqlFileResult where
  uri : Option String
  parse_result : Option SqlParseResult
  deriving DecidableEq, Repr

/-- TinyCallSearchResult from types.ts. -/
structure TinyCallSearchResult where
  sql_call_key : String
  sql_call_range : Range
  sql_file : SqlFileResult
  user_parameters : Option UserParams
  deriving DecidableEq, Repr

/-- getSqlFile inside collectTinyCallDetails: both fields nil when the key
resolves to no file, otherwise the uri together with the parse of the
file contents. -/
def getSqlFile (env : Env) (sql_call_key : String) : SqlFileResult :=
  match findTinySqlFile env sql_call_key with
  | none => { uri := none, parse_result := none }
  | some tiny_file => { uri := some tiny_file, parse_result := some (env.parseSql (env.fileText tiny_file)) }

/-- getObjectLiteralProperties inside collectTinyCallDetails: none unless
the second argument node is an object literal. -/
def getObjectLiteralProperties (arg1 : Expr) : Option UserParams :=
  match arg1.kind with
  | .objectLit props => some (collectUserParams arg1.pos arg1.end_ props)
  | _ => none

/-- The body of the map inside collectTinyCallDetails: a call with fewer
than two arguments gives null. -/
def tinyCallDetail (env : Env) (ce : CallExprData) : Option TinyCallSearchResult :=
  match ce.args with
  | arg0 :: arg1 :: _ =>
      some { sql_call_key := arg0.litText,
             sql_call_range := ⟨arg0.pos, arg0.end_⟩,
             sql_file := getSqlFile env arg0.litText,
             user_parameters := getObjectLiteralProperties arg1 }
  | _ => none

/-- collectTinyCallDetails from util.ts: locate the sql calls, build the
per-call details, compact the nulls. -/
def collectTinyCallDetails (env : Env) (root : Node) : Except String (List TinyCallSearchResult) :=
  (findAllTinyCalls "sql" root).map (fun found_calls => (found_calls.map (tinyCallDetail env)).reduceOption)

/-- Helper for the keys of a lodash groupBy: drop every key already seen,
keeping first occurrences in order. -/
def firstKeysAux (seen : List String) : List String → List String
  | [] => []
  | k :: ks => if seen.contains k then firstKeysAux seen ks else k :: firstKeysAux (k :: seen) ks

/-- The keys of a lodash groupBy, in first-occurrence order. -/
def firstKeys (l : List String) : List String :=
  firstKeysAux [] l

/-- lodash groupBy over range-key pairs: one group per distinct key, in
first-occurrence order, each group keeping the original order. -/
def groupByKey (xs : List (Range × String)) : List (String × List (Range × String)) :=
  (firstKeys (xs.map Prod.snd)).map (fun k => (k, xs.filter (fun m => m.snd == k)))

/-- The missing-file tail of checkForSqlBindings in diagnostics.ts: the
calls with a nil uri, grouped by key, one error diagnostic per call at
the key-argument range. -/
def missingFileDiagnostics (tiny_calls : List TinyCallSearchResult) : List Diagnostic :=
  let missing_files := (tiny_calls.filter (fun x => x.sql_file.uri.isNone)).map
    (fun x => (x.sql_call_range, x.sql_call_key))
  (groupByKey missing_files).flatMap (fun g => g.snd.map
    (fun m => { range := m.fst,
                message := "TinyPg: SQL file [" ++ g.fst ++ "] not found.",
                severity := Severity.error }))

/-- The pure tail of checkForSqlBindings in diagnostics.ts applied to the
collected call details. No filtering by all_property_assignment happens
anywhere on this path. -/
def sqlBindingDiagnostics (tiny_calls : List TinyCallSearchResult) : List Diagnostic :=
  let extra_property_diagnostics := tiny_calls.flatMap (fun tiny_call =>
    match checkForExtraProperties tiny_call.sql_file.parse_result tiny_call.user_parameters with
    | none => []
    | some check => extraPropertyDiagnostics check.user_parameters check.extra_properties tiny_call.sql_call_key)
  let missing_property_diagnostics := tiny_calls.flatMap (fun tiny_call =>
    match checkForMissingProperties tiny_call.sql_file.parse_result tiny_call.user_parameters with
    | none => []
    | some check => missingPropertyDiagnostics check.user_parameters check.missing_properties tiny_call.sql_call_key)
  missing_property_diagnostics ++ extra_property_diagnostics ++ missingFileDiagnostics tiny_calls

/-- checkForSqlBindings from diagnostics.ts. -/
def checkForSqlBindings (env : Env) (root : Node) : Except String (List Diagnostic) :=
  (collectTinyCallDetails env root).map sqlBindingDiagnostics

/-- QueryCallSearchResult from types.ts, as populated by
checkQueryBindings. -/
structure QueryCallSearchResult where
  query_parse : SqlParseResult
  user_parameters : UserParams
  deriving DecidableEq, Repr

/-- getUserParams inside checkQueryBindings in diagnostics.ts: the second
argument is cast to an object literal with no kind check; on any other
node kind, collectUserParams reads .properties.filter of undefined and
throws a TypeError, modelled as Except.error. -/
def getUserParamsUnchecked (arg1 : Expr) : Except String UserParams :=
  match arg1.kind with
  | .objectLit props => Except.ok (collectUserParams arg1.pos arg1.end_ props)
  | _ => Except.error "TypeError: cannot read filter of undefined"

/-- The body of the map inside checkQueryBindings: calls with fewer than
two arguments give null; otherwise the inline SQL text is parsed and the
user parameters are collected (possibly throwing). -/
def queryCallDetail (env : Env) (ce : CallExprData) : Except String (Option QueryCallSearchResult) :=
  match ce.args with
  | arg0 :: arg1 :: _ => do
      let user_parameters ← getUserParamsUnchecked arg1
      pure (some { query_parse := env.parseSql arg0.litText, user_parameters := user_parameters })
  | _ => pure none

/-- The pure tail of checkQueryBindings in diagnostics.ts: missing
diagnostics then extra diagnostics, both labelled sql query. No filtering
by all_property_assignment happens anywhere on this path. -/
def queryBindingDiagnostics (tiny_queries : List QueryCallSearchResult) : List Diagnostic :=
  let extra_property_diagnostics := tiny_queries.flatMap (fun tiny_query =>
    match checkForExtraProperties (some tiny_query.query_parse) (some tiny_query.user_parameters) with
    | none => []
    | some check => extraPropertyDiagnostics check.user_parameters check.extra_properties "sql query")
  let missing_property_diagnostics := tiny_queries.flatMap (fun tiny_query =>
    match checkForMissingProperties (some tiny_query.query_parse) (some tiny_query.user_parameters) with
    | none => []
    | some check => missingPropertyDiagnostics check.user_parameters check.missing_properties "sql query")
  missing_property_diagnostics ++ extra_property_diagnostics

/-- checkQueryBindings from diagnostics.ts. -/
def checkQueryBindings (env : Env) (root : Node) : Except String (List Diagnostic) := do
  let found_query_calls ← findAllTinyCalls "query" root
  let details ← found_query_calls.mapM (queryCallDetail env)
  pure (queryBindingDiagnostics details.reduceOption)

/-- Environment whose SQL parser reports the single named parameter id
(as for SELECT ... WHERE id = :id) and whose workspace holds no files. -/
def envIdParam : Env :=
  { findFiles := fun _ => [], fileText := fun _ => "", parseSql := fun _ => ⟨[⟨"id"⟩]⟩ }

/-- Environment with no files and a parser reporting no parameters. -/
def emptyWorkspaceEnv : Env :=
  { findFiles := fun _ => [], fileText := fun _ => "", parseSql := fun _ => ⟨[]⟩ }

/-- Environment where every file search succeeds and the parser reports no
parameters. -/
def resolvedWorkspaceEnv : Env :=
  { findFiles := fun _ => ["users/findById.sql"], fileText := fun _ => "SELECT 1", parseSql := fun _ => ⟨[]⟩ }

/-- Source tree holding the single inline call
query(sql-text, spread-literal): the second argument is an object literal
whose only property is a spread element. -/
def spreadQueryCallTree : Node :=
  Node.call ⟨some "query", [⟨0, 32, ExprKind.stringLit "SELECT * FROM t WHERE id = :id"⟩,
    ⟨34, 46, ExprKind.objectLit [ObjectProp.spreadAssign]⟩]⟩ []

/-- Source tree holding the single inline call query(sql-text, params)
whose second argument is a plain identifier, not an object literal. -/
def identSecondArgQueryTree : Node :=
  Node.call ⟨some "query", [⟨0, 10, ExprKind.stringLit "SELECT 1"⟩, ⟨12, 18, ExprKind.identRef "params"⟩]⟩ []

/-- Source tree holding the single file-bound call sql(key, params) whose
second argument is a plain identifier, not an object literal. -/
def identSecondArgSqlTree : Node :=
  Node.call ⟨some "sql", [⟨0, 16, ExprKind.stringLit "users.findById"⟩, ⟨18, 24, ExprKind.identRef "params"⟩]⟩ []

/-- Source tree holding the single member call x.sql() with zero
arguments. -/
def zeroArgSqlCallTree : Node :=
  Node.call ⟨some "sql", []⟩ []

/-- Source tree holding the single member call x.sql(key) with one
argument. -/
def oneArgSqlCallTree : Node :=
  Node.call ⟨some "sql", [⟨0, 16, ExprKind.stringLit "users.findById"⟩]⟩ []

/-- Expected-parameter list consisting of the single bare name id. -/
def parseResultId : SqlParseResult := ⟨[⟨"id"⟩]⟩

/-- Expected-parameter list consisting of the bare names id and name. -/
def parseResultIdName : SqlParseResult := ⟨[⟨"id"⟩, ⟨"name"⟩]⟩

section Helpers

/-- checkForExtraProperties returns undefined whenever the parse result is
nil, whatever the user parameters are. -/
theorem checkForExtraProperties_none_left (u : Option UserParams) :
    checkForExtraProperties none u = none := by
  cases u <;> rfl

/-- checkForMissingProperties returns undefined whenever the parse result
is nil, whatever the user parameters are. -/
theorem checkForMissingProperties_none_left (u : Option UserParams) :
    checkForMissingProperties none u = none := by
  cases u <;> rfl

/-- Membership in a filter by nil keyBy lookup is membership in the set
difference with the Object.prototype member names also removed. -/
theorem mem_filter_keyByLookup_nil (l₁ l₂ : List String) (x : String) :
    x ∈ l₁.filter (fun p => !(keyByLookupNotNil l₂ p)) ↔
      x ∈ l₁ ∧ x ∉ l₂ ∧ x ∉ objectPrototypeMembers := by
  simp [keyByLookupNotNil, List.mem_filter, List.contains, List.elem_iff, not_or, and_assoc]

/-- No Object.prototype member name contains the single-quote character. -/
theorem objectPrototypeMembers_no_quote : ∀ n ∈ objectPrototypeMembers, sq ∉ n.data := by
  decide

/-- A filter keeps the full length exactly when every element passes. -/
theorem length_filter_beq_length {α : Type} (p : α → Bool) (l : List α) :
    ((l.filter p).length == l.length) = l.all p := by
  rw [Bool.eq_iff_iff, beq_iff_eq, List.all_eq_true]
  constructor
  · intro h
    exact List.filter_eq_self.mp ((List.filter_sublist l).eq_of_length h)
  · intro h
    rw [List.filter_eq_self.mpr h]

/-- A missing-parameter producer emits no warning-severity diagnostics. -/
theorem countP_warning_missingPropertyDiagnostics (u : UserParams) (ms : List String) (nm : String) :
    (missingPropertyDiagnostics u ms nm).countP (fun d => d.severity == Severity.warning) = 0 := by
  cases h : ms.isEmpty <;> simp [missingPropertyDiagnostics, h]

/-- An extra-parameter producer emits no error-severity diagnostics. -/
theorem countP_error_extraPropertyDiagnostics (u : UserParams) (ex : List String) (nm : String) :
    (extraPropertyDiagnostics u ex nm).countP (fun d => d.severity == Severity.error) = 0 := by
  cases h : ex.isEmpty <;> simp [extraPropertyDiagnostics, h]

/-- The extra-parameter producer emits at most one diagnostic. -/
theorem length_extraPropertyDiagnostics_le_one (u : UserParams) (ex : List String) (nm : String) :
    (extraPropertyDiagnostics u ex nm).length ≤ 1 := by
  cases h : ex.isEmpty <;> simp [extraPropertyDiagnostics, h]

/-- The missing-parameter producer emits at most one diagnostic. -/
theorem length_missingPropertyDiagnostics_le_one (u : UserParams) (ms : List String) (nm : String) :
    (missingPropertyDiagnostics u ms nm).length ≤ 1 := by
  cases h : ms.isEmpty <;> simp [missingPropertyDiagnostics, h]

/-- Every diagnostic of the missing-parameter producer is anchored at the
parameter-literal range. -/
theorem all_range_missingPropertyDiagnostics (u : UserParams) (ms : List String) (nm : String) :
    (missingPropertyDiagnostics u ms nm).all (fun d => d.range == u.range) = true := by
  cases h : ms.isEmpty <;> simp [missingPropertyDiagnostics, h]

/-- Every diagnostic of the extra-parameter producer is anchored at the
parameter-literal range. -/
theorem all_range_extraPropertyDiagnostics (u : UserParams) (ex : List String) (nm : String) :
    (extraPropertyDiagnostics u ex nm).all (fun d => d.range == u.range) = true := by
  cases h : ex.isEmpty <;> simp [extraPropertyDiagnostics, h]

/-- checkQueryBindings on a single located query call produces the missing
diagnostics followed by the extra diagnostics, both computed from the
reconciliation filters of that call. -/
theorem queryBindingDiagnostics_singleton (q : QueryCallSearchResult) :
    queryBindingDiagnostics [q] =
      missingPropertyDiagnostics q.user_parameters
        ((q.query_parse.mapping.map ParamEntry.name).filter
          (fun p => !(keyByLookupNotNil q.user_parameters.property_names p))) "sql query" ++
      extraPropertyDiagnostics q.user_parameters
        (q.user_parameters.property_names.filter
          (fun p => !(keyByLookupNotNil (q.query_parse.mapping.map ParamEntry.name) p))) "sql query" := by
  simp [queryBindingDiagnostics, checkForExtraProperties, checkForMissingProperties]

end Helpers

/-- Claim C1: false of the code. The diagnostics.ts pipeline never
consults all_property_assignment: for the inline query form, a call whose
parameter literal holds only a spread element (hence is non-exhaustive)
still yields a missing-parameter error diagnostic when the parser expects
id, instead of the suppression the specification requires. -/
theorem claim1_missing_not_suppressed :
    (collectUserParams 34 46 [ObjectProp.spreadAssign]).all_property_assignment = false ∧
    checkQueryBindings envIdParam spreadQueryCallTree =
      Except.ok [⟨⟨34, 46⟩, "TinyPg: Missing parameter [id] for [sql query].", Severity.error⟩] :=
  ⟨rfl, rfl⟩

/-- Claim C3: false of the code on the inline form. When the second
argument of a query call is an identifier rather than an object literal,
checkQueryBindings casts it without a kind check and crashes with a
TypeError instead of skipping the call; the file-bound form does guard
(getObjectLiteralProperties) and contributes zero diagnostics. -/
theorem claim3_nonliteral_arg_crash :
    checkQueryBindings envIdParam identSecondArgQueryTree =
      Except.error "TypeError: cannot read filter of undefined" ∧
    checkForSqlBindings resolvedWorkspaceEnv identSecondArgSqlTree = Except.ok [] :=
  ⟨rfl, rfl⟩

/-- Claim C4: false of the code for zero-argument calls. The call locator
reads arguments[0].kind before any length check, so the member call
x.sql() with zero arguments throws a TypeError and aborts the analysis
instead of being excluded; a one-argument call is located and then
excluded with zero diagnostics as the claim states. -/
theorem claim4_zero_arg_crash :
    findAllTinyCalls "sql" zeroArgSqlCallTree =
      Except.error "TypeError: cannot read kind of undefined" ∧
    checkForSqlBindings resolvedWorkspaceEnv zeroArgSqlCallTree =
      Except.error "TypeError: cannot read kind of undefined" ∧
    checkForSqlBindings resolvedWorkspaceEnv oneArgSqlCallTree = Except.ok [] :=
  ⟨rfl, rfl, rfl⟩

/-- Claim C6, counterexample: a literal whose only property is a
computed-key property assignment is flagged exhaustive by the code, while
the claim states that a computed-key property makes the flag false. -/
theorem claim6_computed_key_exhaustive :
    (collectUserParams 0 8 [ObjectProp.propAssign (PropName.computed "k")]).all_property_assignment = true :=
  rfl

/-- Claim C6, amended: the exhaustive flag is true exactly when every
property of the literal has kind PropertyAssignment or
ShorthandPropertyAssignment; a spread element makes it false, while a
computed-key property assignment still counts as an assignment and does
not make it false. -/
theorem claim6_exhaustive_iff_all_assignment (object_pos object_end : Nat) (properties : List ObjectProp) :
    (collectUserParams object_pos object_end properties).all_property_assignment =
      properties.all ObjectProp.isAssignment := by
  simp only [collectUserParams, List.length_map]
  exact length_filter_beq_length _ _

/-- Claim C7: false of the code. findTinySqlFile replaces only the first
dot of the key (JavaScript String.replace with a string pattern), so the
key a.b.c is searched as the glob for a/b.c.sql, not a/b/c.sql; the
missingTinyFiles scanner in extension.ts applies a global regex and maps
the same key to a/b/c.sql. -/
theorem claim7_first_dot_only :
    path_to_search "a.b.c" = "**/a/b.c.sql" ∧
    missingTinyFileName "a.b.c" = "a/b/c.sql" ∧
    path_to_search "a.b.c" ≠ "**/" ++ jsReplaceAllDots "a.b.c" ++ ".sql" := by
  refine ⟨rfl, rfl, ?_⟩
  decide

/-- Claim C2: false of the code at names colliding with Object.prototype
members. With expected id and the exhaustive supplied names toString and
extra, the name toString lies in the set difference supplied minus
expected yet the code reports only extra as extra; dually, with expected
toString and name and the exhaustive supplied name id, the name toString
lies in expected minus supplied yet the code reports only name as
missing: the keyBy lookup resolves toString through the prototype chain,
so the computed sets are not the exact set differences. -/
theorem claim2_proto_names_escape_differences :
    extraPropsOf (some parseResultId) (some ⟨["toString", "extra"], ⟨0, 1⟩, true⟩) = ["extra"] ∧
    ("toString" ∈ (["toString", "extra"] : List String) ∧ "toString" ∉ parseResultId.names) ∧
    missingPropsOf (some ⟨[⟨"toString"⟩, ⟨"name"⟩]⟩) (some ⟨["id"], ⟨2, 3⟩, true⟩) = ["name"] ∧
    ("toString" ∈ (SqlParseResult.mk [⟨"toString"⟩, ⟨"name"⟩]).names ∧
      "toString" ∉ (["id"] : List String)) := by
  exact ⟨rfl, by decide, rfl, by decide⟩

/-- Claim C5: a located file-bound call whose key resolves to no file
yields exactly one error diagnostic, anchored at the key-argument range,
whatever the second argument is, and no extra- or missing-parameter
diagnostics for that call. -/
theorem claim5_not_found_single_error (env : Env) (key : String) (kpos kend : Nat) (arg1 : Expr)
    (hnf : env.findFiles (path_to_search key) = []) :
    checkForSqlBindings env (Node.call ⟨some "sql", [⟨kpos, kend, ExprKind.stringLit key⟩, arg1]⟩ []) =
      Except.ok [⟨⟨kpos, kend⟩, "TinyPg: SQL file [" ++ key ++ "] not found.", Severity.error⟩] := by
  have hfind : findTinySqlFile env key = none := by simp [findTinySqlFile, hnf]
  simp [checkForSqlBindings, collectTinyCallDetails, findAllTinyCalls, findAllTinyCallsHelp,
    findAllTinyCallsChildren, tinyCallDetail, Expr.litText, ExprKind.isStringLike, getSqlFile, hfind,
    sqlBindingDiagnostics, missingFileDiagnostics, groupByKey, firstKeys, firstKeysAux,
    checkForExtraProperties_none_left, checkForMissingProperties_none_left,
    Except.map, List.reduceOption, pure, Except.pure, Bind.bind, Except.bind]

/-- Claim C5, witness: in an empty workspace the call
sql(users.findById, object-literal) yields the single not-found error at
the key range. -/
theorem claim5_not_found_single_error_witness :
    emptyWorkspaceEnv.findFiles (path_to_search "users.findById") = [] ∧
    checkForSqlBindings emptyWorkspaceEnv
      (Node.call ⟨some "sql", [⟨10, 27, ExprKind.stringLit "users.findById"⟩,
        ⟨30, 40, ExprKind.objectLit [ObjectProp.propAssign (PropName.ident "id")]⟩]⟩ []) =
      Except.ok [⟨⟨10, 27⟩, "TinyPg: SQL file [" ++ "users.findById" ++ "] not found.", Severity.error⟩] :=
  ⟨rfl, claim5_not_found_single_error emptyWorkspaceEnv "users.findById" 10 27 _ rfl⟩

/-- Claim C8: every missing-parameter diagnostic and every
binding-target-not-found diagnostic has error severity, and every
extra-parameter diagnostic has warning severity. -/
theorem claim8_severities (u : UserParams) (ex ms : List String) (nm : String)
    (calls : List TinyCallSearchResult) :
    (missingPropertyDiagnostics u ms nm).all (fun d => d.severity == Severity.error) = true ∧
    (extraPropertyDiagnostics u ex nm).all (fun d => d.severity == Severity.warning) = true ∧
    (missingFileDiagnostics calls).all (fun d => d.severity == Severity.error) = true := by
  refine ⟨?_, ?_, ?_⟩
  · cases h : ms.isEmpty <;> simp [missingPropertyDiagnostics, h]
  · cases h : ex.isEmpty <;> simp [extraPropertyDiagnostics, h]
  · rw [List.all_eq_true]
    intro d hd
    simp only [missingFileDiagnostics, List.mem_flatMap, List.mem_map] at hd
    obtain ⟨g, -, m, -, rfl⟩ := hd
    rfl

/-- Claim C9: each producer aggregates all offending names into at most
one diagnostic (none when the difference is empty), anchored at the full
object-literal range, with the names joined by comma-space inside the
message template; and a whole single-call query analysis emits at most one
warning and at most one error, all anchored at the literal range. -/
theorem claim9_aggregation (q : QueryCallSearchResult) (u : UserParams) (ex ms : List String) (nm : String) :
    ((extraPropertyDiagnostics u ex nm).length = if ex.isEmpty then 0 else 1) ∧
    ((missingPropertyDiagnostics u ms nm).length = if ms.isEmpty then 0 else 1) ∧
    ((extraPropertyDiagnostics u ex nm).all
      (fun d => d.range == u.range && d.message == extraMessage ex nm && d.severity == Severity.warning) = true) ∧
    ((missingPropertyDiagnostics u ms nm).all
      (fun d => d.range == u.range && d.message == missingMessage ms nm && d.severity == Severity.error) = true) ∧
    ((queryBindingDiagnostics [q]).countP (fun d => d.severity == Severity.warning) ≤ 1) ∧
    ((queryBindingDiagnostics [q]).countP (fun d => d.severity == Severity.error) ≤ 1) ∧
    ((queryBindingDiagnostics [q]).all (fun d => d.range == q.user_parameters.range) = true) := by
  refine ⟨?_, ?_, ?_, ?_, ?_, ?_, ?_⟩
  · cases h : ex.isEmpty <;> simp [extraPropertyDiagnostics, h]
  · cases h : ms.isEmpty <;> simp [missingPropertyDiagnostics, h]
  · cases h : ex.isEmpty <;> simp [extraPropertyDiagnostics, h]
  · cases h : ms.isEmpty <;> simp [missingPropertyDiagnostics, h]
  · rw [queryBindingDiagnostics_singleton, List.countP_append, countP_warning_missingPropertyDiagnostics]
    simpa using Nat.le_trans (List.countP_le_length _) (length_extraPropertyDiagnostics_le_one _ _ _)
  · rw [queryBindingDiagnostics_singleton, List.countP_append, countP_error_extraPropertyDiagnostics]
    simpa using Nat.le_trans (List.countP_le_length _) (length_missingPropertyDiagnostics_le_one _ _ _)
  · rw [queryBindingDiagnostics_singleton, List.all_append, Bool.and_eq_true]
    exact ⟨all_range_missingPropertyDiagnostics _ _ _, all_range_extraPropertyDiagnostics _ _ _⟩

/-- Claim C10, counterexample: with the expected parameter toString and
the literal holding the single property written as the quoted text
toString, the supplied name keeps its quotes, yet the code reports no
missing parameter: the keyBy lookup of the bare name toString resolves
through the prototype chain, so the quoted property does, contrary to the
claim, satisfy the corresponding expected parameter. -/
theorem claim10_proto_name_counterexample :
    (collectUserParams 0 14 [ObjectProp.propAssign (PropName.strLit "toString")]).property_names =
      [sqs ++ "toString" ++ sqs] ∧
    missingPropsOf (some ⟨[⟨"toString"⟩]⟩)
      (some (collectUserParams 0 14 [ObjectProp.propAssign (PropName.strLit "toString")])) = [] :=
  ⟨rfl, rfl⟩

/-- Claim C10, amended: a property whose name is written as a string
literal supplies the exact quoted source text as its name; when no
expected name contains a quote character, the quoted name never equals an
expected name and is always reported extra, and the corresponding bare
expected name is reported missing exactly when it is not an
Object.prototype member name (for a member name such as toString the
keyBy lookup resolves through the prototype chain and the parameter is
not reported missing). -/
theorem claim10_string_literal_key (object_pos object_end : Nat) (s : String) (pr : SqlParseResult)
    (hs : s ∈ pr.names) (hq : ∀ n ∈ pr.names, sq ∉ n.data) :
    (collectUserParams object_pos object_end [ObjectProp.propAssign (PropName.strLit s)]).property_names =
      [sqs ++ s ++ sqs] ∧
    (sqs ++ s ++ sqs) ∈ extraPropsOf (some pr)
      (some (collectUserParams object_pos object_end [ObjectProp.propAssign (PropName.strLit s)])) ∧
    (s ∉ objectPrototypeMembers →
      s ∈ missingPropsOf (some pr)
        (some (collectUserParams object_pos object_end [ObjectProp.propAssign (PropName.strLit s)]))) ∧
    (s ∈ objectPrototypeMembers →
      s ∉ missingPropsOf (some pr)
        (some (collectUserParams object_pos object_end [ObjectProp.propAssign (PropName.strLit s)]))) := by
  have hqmem : sq ∈ (sqs ++ s ++ sqs).data := by
    simp [String.data_append, sqs]
  have hneq : (sqs ++ s ++ sqs) ∉ pr.names := fun hmem => hq _ hmem hqmem
  have hnproto : (sqs ++ s ++ sqs) ∉ objectPrototypeMembers :=
    fun hmem => objectPrototypeMembers_no_quote _ hmem hqmem
  have hlen1 : sqs.length = 1 := rfl
  have hslen : s ∉ ([sqs ++ s ++ sqs] : List String) := by
    intro hmem
    have heq : s = sqs ++ s ++ sqs := List.mem_singleton.mp hmem
    have hl := congrArg String.length heq
    rw [String.length_append, String.length_append, hlen1] at hl
    omega
  refine ⟨rfl, ?_, ?_, ?_⟩
  · exact (mem_filter_keyByLookup_nil _ _ _).mpr ⟨List.mem_singleton.mpr rfl, by
      simpa [SqlParseResult.names] using hneq, hnproto⟩
  · intro hsp
    exact (mem_filter_keyByLookup_nil _ _ _).mpr ⟨by simpa [SqlParseResult.names] using hs, hslen, hsp⟩
  · intro hsp hmem
    exact ((mem_filter_keyByLookup_nil _ _ _).mp hmem).2.2 hsp

/-- Claim C10, witness: with expected id and the literal holding the
single property whose name is the quoted text id, the quoted name is
extra and, id not being an Object.prototype member, the bare name id is
missing. -/
theorem claim10_string_literal_key_witness :
    ("id" ∈ parseResultId.names ∧ (∀ n ∈ parseResultId.names, sq ∉ n.data) ∧
      "id" ∉ objectPrototypeMembers) ∧
    (sqs ++ "id" ++ sqs) ∈ extraPropsOf (some parseResultId)
      (some (collectUserParams 0 9 [ObjectProp.propAssign (PropName.strLit "id")])) ∧
    "id" ∈ missingPropsOf (some parseResultId)
      (some (collectUserParams 0 9 [ObjectProp.propAssign (PropName.strLit "id")])) :=
  ⟨⟨by decide, by decide, by decide⟩,
   (claim10_string_literal_key 0 9 "id" parseResultId (by decide) (by decide)).2.1,
   (claim10_string_literal_key 0 9 "id" parseResultId (by decide) (by decide)).2.2.1 (by decide)⟩

end TinypgVscode
